import Mathlib

/-
Verification of the geo-blocking HTTP service in shopify_customers.go.

The Go program is shallowly embedded: pure string manipulation becomes Lean
functions on String (via the underlying List Char), the external geo-lookup
HTTP calls become an explicit environment record (GeoEnv) describing what each
provider would answer, the process-wide mutable block list becomes explicit
state passing, and the wall clock becomes an explicit RFC3339-formatted string
parameter.  Go strings are byte sequences; all inputs of interest here are
ASCII, where Go's byte indices coincide with character indices, so List Char
is a faithful model.
-/

namespace GeoBlock

/-! ### Go string primitives used by the program -/

/-- ASCII whitespace recognized by Go's strings.TrimSpace on the inputs in
scope (Go also trims other Unicode spaces; the program only ever sees ASCII). -/
def goIsSpace (c : Char) : Bool :=
  c = ' ' || c = '\t' || c = '\n' || c = '\r'

/-- Go strings.TrimSpace. -/
def goTrimSpace (s : String) : String :=
  String.mk (((s.data.dropWhile goIsSpace).reverse.dropWhile goIsSpace).reverse)

/-- The first entry of Go strings.Split(s, ",") : everything before the first
comma, or the whole string when there is none. -/
def splitCommaFirst (l : List Char) : List Char :=
  l.takeWhile (fun c => c ≠ ',')

/-- ips[0] of strings.Split(xff, ","), trimmed, as in getRealIP. -/
def firstForwardedEntry (s : String) : String :=
  goTrimSpace (String.mk (splitCommaFirst s.data))

/-- Go strings.HasPrefix s p. -/
def listHasPrefixOf : List Char → List Char → Bool
  | _, [] => true
  | [], _ :: _ => false
  | a :: as, b :: bs => a = b && listHasPrefixOf as bs

/-- Go strings.HasPrefix on String. -/
def goHasPrefixOf (s p : String) : Bool :=
  listHasPrefixOf s.data p.data

/-- Go strings.Index for a single character (first occurrence), -1 becomes none. -/
def firstIdx (c : Char) : List Char → Option Nat
  | [] => none
  | x :: xs =>
    if x = c then some 0
    else match firstIdx c xs with
      | some i => some (i + 1)
      | none => none

/-- Go strings.LastIndex for a single character (last occurrence), -1 becomes none. -/
def lastIdx (c : Char) : List Char → Option Nat
  | [] => none
  | x :: xs =>
    match lastIdx c xs with
    | some i => some (i + 1)
    | none => if x = c then some 0 else none

/-! ### isPrivateIP (shopify_customers.go lines 159-171) -/

/-- isPrivateIP checks if an IP address is private/local.  The prefixes are
exactly the ones in the source, in source order; note the source really uses
the five-character prefix "172.2" (not "172.20.") in the middle of the list. -/
def isPrivateIP (ip : String) : Bool :=
  goHasPrefixOf ip "192.168." ||
  goHasPrefixOf ip "10." ||
  goHasPrefixOf ip "172.16." ||
  goHasPrefixOf ip "172.17." ||
  goHasPrefixOf ip "172.18." ||
  goHasPrefixOf ip "172.19." ||
  goHasPrefixOf ip "172.2" ||
  goHasPrefixOf ip "172.30." ||
  goHasPrefixOf ip "172.31." ||
  goHasPrefixOf ip "127." ||
  ip = "::1"

/-- Specification-side predicate, written from the spec sentence for claim C3:
an address is in a reserved, non-routable range exactly when it lies in 10.x,
172.16.x - 172.31.x, 192.168.x, 127.x, or is the loopback ::1. -/
def reservedRangeSpec (ip : String) : Bool :=
  goHasPrefixOf ip "10." ||
  goHasPrefixOf ip "172.16." ||
  goHasPrefixOf ip "172.17." ||
  goHasPrefixOf ip "172.18." ||
  goHasPrefixOf ip "172.19." ||
  goHasPrefixOf ip "172.20." ||
  goHasPrefixOf ip "172.21." ||
  goHasPrefixOf ip "172.22." ||
  goHasPrefixOf ip "172.23." ||
  goHasPrefixOf ip "172.24." ||
  goHasPrefixOf ip "172.25." ||
  goHasPrefixOf ip "172.26." ||
  goHasPrefixOf ip "172.27." ||
  goHasPrefixOf ip "172.28." ||
  goHasPrefixOf ip "172.29." ||
  goHasPrefixOf ip "172.30." ||
  goHasPrefixOf ip "172.31." ||
  goHasPrefixOf ip "192.168." ||
  goHasPrefixOf ip "127." ||
  ip = "::1"

/-! ### getRealIP (shopify_customers.go lines 174-221) -/

/-- The request data getRealIP consumes: the three proxy headers (empty string
models an absent header, exactly what Go's Header.Get returns) and the raw
connection RemoteAddr. -/
structure HTTPRequest where
  xForwardedFor : String
  xRealIP : String
  cfConnectingIP : String
  remoteAddr : String

/-- The ip:port fallback of getRealIP: strip at the last ":" when its index
is positive, else return as-is. -/
def stripColonList (l : List Char) : List Char :=
  match lastIdx ':' l with
  | some i => if 0 < i then l.take i else l
  | none => l

/-- The RemoteAddr fallback of getRealIP: unwrap a bracketed IPv6 literal
when the string starts with "[" and "]" occurs at a positive index
(remoteAddr[1:endBracket]), else fall through to the ip:port handling. -/
def stripPortList (l : List Char) : List Char :=
  if listHasPrefixOf l ['['] then
    match firstIdx ']' l with
    | some e => if 0 < e then (l.take e).drop 1 else stripColonList l
    | none => stripColonList l
  else stripColonList l

/-- getRealIP extracts the real IP address from request headers, with the
precedence and fallbacks of the source: X-Forwarded-For first entry (only if
the header is non-empty and the trimmed entry is non-empty), then X-Real-IP,
then CF-Connecting-IP, then RemoteAddr with the port stripped. -/
def getRealIP (r : HTTPRequest) : String :=
  if r.xForwardedFor ≠ "" ∧ firstForwardedEntry r.xForwardedFor ≠ "" then
    firstForwardedEntry r.xForwardedFor
  else if r.xRealIP ≠ "" then r.xRealIP
  else if r.cfConnectingIP ≠ "" then r.cfConnectingIP
  else String.mk (stripPortList r.remoteAddr.data)

/-! ### The external geo-lookup providers as an explicit environment -/

/-- A decoded ipinfo.io JSON body (the fields the program reads).  An empty
string models a field absent from the JSON, exactly Go's zero value after
json.Decode. -/
structure PublicIPInfo where
  ip : String
  country : String
  deriving DecidableEq

/-- One request's view of the external world: what each provider would answer.
none models a transport failure, a non-200 status, or an undecodable body —
every case in which the Go code falls through without a value. -/
structure GeoEnv where
  /-- Response of GET https://ipinfo.io/json (self lookup). -/
  ipinfoSelf : Option PublicIPInfo
  /-- Bodies of the three plain what-is-my-ip services, in source order:
  api.ipify.org, checkip.amazonaws.com, icanhazip.com. -/
  ipServices : List (Option String)
  /-- The country field of GET https://ipinfo.io/{ip}/json for a given ip. -/
  ipinfoLookup : String → Option String

/-- The public-IP branch of getCountryFromIPAddress (lines 138-155): query
ipinfo.io for the address; succeed only when the decode succeeded and the
country field is non-empty. -/
def lookupPublicCountry (env : GeoEnv) (ip : String) : Except Unit String :=
  match env.ipinfoLookup ip with
  | some c => if c ≠ "" then .ok c else .error ()
  | none => .error ()

/-- The provider loop of getRealPublicIP (lines 395-429).  A service counts
only when its trimmed body is non-empty and not private; the inner
getCountryFromIPAddress call is on an address that just passed the
non-private check, so it is exactly the public branch lookupPublicCountry
(the lemma getCountryFromIPAddress_public below discharges this). -/
def tryIPServices (env : GeoEnv) : List (Option String) → Except Unit (String × String)
  | [] => .error ()
  | none :: rest => tryIPServices env rest
  | some body :: rest =>
    let ip := goTrimSpace body
    if ip ≠ "" ∧ isPrivateIP ip = false then
      match lookupPublicCountry env ip with
      | .ok c => .ok (ip, c)
      | .error _ => .ok (ip, "")
    else tryIPServices env rest

/-- getRealPublicIP tries to get the real public IP from external services. -/
def getRealPublicIP (env : GeoEnv) : Except Unit (String × String) :=
  tryIPServices env env.ipServices

/-- getRealPublicIPAndCountry (lines 370-392): ipinfo.io self-lookup first,
accepted only with a non-empty non-private IP and a non-empty country;
otherwise fall back to getRealPublicIP. -/
def getRealPublicIPAndCountry (env : GeoEnv) : Except Unit (String × String) :=
  match env.ipinfoSelf with
  | some info =>
    if info.ip ≠ "" ∧ info.country ≠ "" ∧ isPrivateIP info.ip = false then
      .ok (info.ip, info.country)
    else getRealPublicIP env
  | none => getRealPublicIP env

/-- getCountryFromIPAddress (lines 125-156): private addresses go through
public-IP discovery and succeed only with both a non-empty IP and a non-empty
country; public addresses query ipinfo.io directly. -/
def getCountryFromIPAddress (env : GeoEnv) (ip : String) : Except Unit String :=
  if isPrivateIP ip then
    match getRealPublicIPAndCountry env with
    | .ok (rip, rc) => if rip ≠ "" ∧ rc ≠ "" then .ok rc else .error ()
    | .error _ => .error ()
  else lookupPublicCountry env ip

/-! ### Block list store and the contains membership test -/

/-- contains (lines 968-975): linear scan with Go string equality. -/
def contains (slice : List String) (item : String) : Bool :=
  match slice with
  | [] => false
  | s :: rest => if s = item then true else contains rest item

/-! ### countryBlockingMiddleware (lines 224-287) -/

/-- countryCode, _ = getCountryFromIPAddress(...): the country on success,
Go's zero value "" on error. -/
def countryOrEmpty (env : GeoEnv) (ip : String) : String :=
  match getCountryFromIPAddress env ip with
  | .ok c => c
  | .error _ => ""

/-- Lines 233-245 of the middleware: the pair (actualIP, countryCode) before
the UNKNOWN defaulting.  For a private client IP a successful discovery with a
non-empty IP supplies both; otherwise actualIP stays the client IP and the
country comes from getCountryFromIPAddress with "" on error. -/
def middlewareResolve (env : GeoEnv) (clientIP : String) : String × String :=
  if isPrivateIP clientIP then
    match getRealPublicIPAndCountry env with
    | .ok (rip, rc) =>
      if rip ≠ "" then (rip, rc) else (clientIP, countryOrEmpty env clientIP)
    | .error _ => (clientIP, countryOrEmpty env clientIP)
  else (clientIP, countryOrEmpty env clientIP)

/-- Lines 247-250: an empty country code becomes the sentinel UNKNOWN. -/
def effectiveCountry (env : GeoEnv) (clientIP : String) : String :=
  let c := (middlewareResolve env clientIP).2
  if c = "" then "UNKNOWN" else c

/-- The JSON body of the 403 response (lines 264-272). -/
structure DenyBody where
  error : String
  message : String
  country_code : String
  client_ip : String
  detected_via : String
  blocked_at : String
  reason : String
  deriving DecidableEq

/-- Outcome of the middleware: a 403 with the deny body and no call to the
protected handler, or control passed to the protected handler together with
the two debug headers set on the allow path. -/
inductive GateResult where
  | deny (status : Nat) (body : DenyBody)
  | allow (xClientCountry xClientIP : String)
  deriving DecidableEq

/-- countryBlockingMiddleware, with the clock passed in as the already
RFC3339-formatted string now (time.Now().Format(time.RFC3339)). -/
def countryBlockingGate (env : GeoEnv) (blockList : List String) (now clientIP : String) :
    GateResult :=
  let actualIP := (middlewareResolve env clientIP).1
  let countryCode := effectiveCountry env clientIP
  if contains blockList countryCode then
    .deny 403
      { error := "Country Blocked"
        message := "Access denied: Your country (" ++ countryCode ++ ") has been blocked"
        country_code := countryCode
        client_ip := actualIP
        detected_via := clientIP
        blocked_at := now
        reason := "Geo-blocking policy in effect" }
  else .allow countryCode clientIP

/-- HTTP status of the gated /api/test-access endpoint: the protected handler
handleTestAccess never sets a status, so Go writes 200 on the allow path. -/
def testAccessStatus (env : GeoEnv) (blockList : List String) (now clientIP : String) : Nat :=
  match countryBlockingGate env blockList now clientIP with
  | .deny s _ => s
  | .allow _ _ => 200

/-! ### handleBlockCountries (lines 691-720) -/

/-- The 200 body of /api/block-countries. -/
structure BlockingResponse where
  message : String
  blocked_countries : List String
  success : Bool
  deriving DecidableEq

/-- Reply of /api/block-countries: invalidJSON is the http.Error 400 path. -/
inductive BlockReply where
  | invalidJSON
  | ok (resp : BlockingResponse)
  deriving DecidableEq

/-- HTTP status of a BlockReply. -/
def blockReplyStatus : BlockReply → Nat
  | .invalidJSON => 400
  | .ok _ => 200

/-- handleBlockCountries on the POST path.  The body argument is the result of
json.Decode into BlockingRequest: none models undecodable JSON; note that a
decodable body in which the countries field is absent decodes to the nil
slice, i.e. some [] — the handler performs no further validation.  The state
is the process-global blockedCountriesList; the handler replaces it wholesale
with the request's list, verbatim. -/
def handleBlockCountries (state : List String) (body : Option (List String)) :
    List String × BlockReply :=
  match body with
  | none => (state, .invalidJSON)
  | some countries =>
    (countries,
     .ok { message := "Successfully blocked " ++ toString countries.length ++ " countries"
           blocked_countries := countries
           success := true })

/-! ### handleSimulateVPN (lines 449-526) and its helpers -/

/-- Lookup in one of the program's literal string-to-string maps (Go map
indexing with the ok flag; lookup order is irrelevant since keys are distinct). -/
def goMapLookup (m : List (String × String)) (key : String) : Option String :=
  match m with
  | [] => none
  | (k, v) :: rest => if k = key then some v else goMapLookup rest key

/-- The literal map inside generateSimulatedIP (lines 531-547). -/
def simulatedIPRanges : List (String × String) :=
  [("US", "192.168.1.100"), ("DE", "185.199.108.153"), ("RU", "46.4.96.137"),
   ("CN", "103.21.244.8"), ("FR", "46.19.37.108"), ("GB", "151.101.193.140"),
   ("AU", "203.0.113.195"), ("CA", "198.51.100.42"), ("JP", "210.251.121.3"),
   ("BR", "191.232.38.25"), ("IN", "103.21.244.15"), ("NL", "185.40.4.193"),
   ("IT", "151.101.1.140"), ("ES", "185.199.110.153"), ("SE", "185.40.4.194")]

/-- generateSimulatedIP: map lookup with the fixed fallback "198.51.100.1". -/
def generateSimulatedIP (countryCode : String) : String :=
  match goMapLookup simulatedIPRanges countryCode with
  | some ip => ip
  | none => "198.51.100.1"

/-- The literal map inside getCountryName (lines 558-568). -/
def countryNames : List (String × String) :=
  [("US", "United States"), ("CA", "Canada"), ("GB", "United Kingdom"),
   ("DE", "Germany"), ("FR", "France"), ("AU", "Australia"), ("JP", "Japan"),
   ("RU", "Russia"), ("CN", "China"), ("NL", "Netherlands"), ("BR", "Brazil"),
   ("IN", "India"), ("ES", "Spain"), ("IT", "Italy"), ("SE", "Sweden")]

/-- getCountryName: map lookup returning the ok flag as an Option. -/
def getCountryName (countryCode : String) : Option String :=
  goMapLookup countryNames countryCode

/-- The /api/simulate-vpn request body after json.Decode. -/
structure VPNSimulationRequest where
  country_code : String

/-- The /api/simulate-vpn JSON response; absent fields are Go zero values. -/
structure VPNSimulationResponse where
  success : Bool
  message : String
  country_code : String
  country_name : String
  simulated_ip : String
  is_blocked : Bool
  timestamp : String
  error : String
  deriving DecidableEq

/-- handleSimulateVPN on the POST path: status code paired with the response
body.  The body argument is none for undecodable JSON (400); an empty
country_code (also what a missing field decodes to) is rejected 400; then a
blocked country gives 403 and an allowed one 200, both echoing the code, the
name, the deterministic simulated IP and the clock. -/
def handleSimulateVPN (blockList : List String) (now : String)
    (body : Option VPNSimulationRequest) : Nat × VPNSimulationResponse :=
  match body with
  | none =>
    (400, { success := false, message := "", country_code := "", country_name := ""
            simulated_ip := "", is_blocked := false, timestamp := ""
            error := "Invalid JSON request" })
  | some req =>
    if req.country_code = "" then
      (400, { success := false, message := "", country_code := "", country_name := ""
              simulated_ip := "", is_blocked := false, timestamp := ""
              error := "Country code is required" })
    else
      let countryName :=
        match getCountryName req.country_code with
        | some n => n
        | none => "Unknown Country"
      let simulatedIP := generateSimulatedIP req.country_code
      if contains blockList req.country_code then
        (403, { success := false
                message := "Access denied: " ++ countryName ++ " (" ++ req.country_code ++ ") is blocked"
                country_code := req.country_code
                country_name := countryName
                simulated_ip := simulatedIP
                is_blocked := true
                timestamp := now
                error := "Country is geo-blocked" })
      else
        (200, { success := true
                message := "Access granted from " ++ countryName ++ " (" ++ req.country_code ++ ")"
                country_code := req.country_code
                country_name := countryName
                simulated_ip := simulatedIP
                is_blocked := false
                timestamp := now
                error := "" })

/-! ### handleValidateBlocking (lines 723-773) -/

/-- getStatusMessage (lines 977-982). -/
def getStatusMessage (isBlocked : Bool) : String :=
  if isBlocked then "Access denied (geo-blocked)" else "Access granted"

/-- One entry of the test_results array. -/
structure TestResult where
  country : String
  blocked : Bool
  status : String
  response_time : Nat
  deriving DecidableEq

/-- The summary object of the validation response. -/
structure ValidationSummary where
  blocked_count : Nat
  allowed_count : Nat
  total_tests : Nat
  deriving DecidableEq

/-- The /api/validate-blocking 200 body. -/
structure ValidationResponse where
  test_results : List TestResult
  summary : ValidationSummary
  deriving DecidableEq

/-- The /api/validate-blocking request body after json.Decode. -/
structure ValidationRequest where
  blocked_countries : List String
  test_countries : List String

/-- One iteration of the validation loop (lines 741-761): the membership test
against the request's hypothetical list and the simulated response time
50 + len(country) * 10 (byte length; ASCII, so character length here). -/
def validateStep (blocked : List String) (country : String) : TestResult :=
  let isBlocked := contains blocked country
  { country := country
    blocked := isBlocked
    status := getStatusMessage isBlocked
    response_time := 50 + country.length * 10 }

/-- The two counters accumulated by the loop, in iteration order. -/
def countBlockedAllowed (results : List TestResult) : Nat × Nat :=
  results.foldl (fun acc r => if r.blocked then (acc.1 + 1, acc.2) else (acc.1, acc.2 + 1)) (0, 0)

/-- handleValidateBlocking on the POST path: none models undecodable JSON
(the http.Error 400 path, reply none).  The handler reads only the request's
blocked_countries — never the live blockedCountriesList — and writes nothing,
so the state passes through untouched. -/
def handleValidateBlocking (state : List String) (body : Option ValidationRequest) :
    List String × Option ValidationResponse :=
  match body with
  | none => (state, none)
  | some req =>
    let results := req.test_countries.map (validateStep req.blocked_countries)
    let counts := countBlockedAllowed results
    (state,
     some { test_results := results
            summary := { blocked_count := counts.1
                         allowed_count := counts.2
                         total_tests := req.test_countries.length } })

/-! ### Concrete provider environments used in counterexamples and witnesses -/

/-- Every provider down: ipinfo.io unreachable, all three IP services fail,
every per-IP lookup fails. -/
def envAllFail : GeoEnv :=
  { ipinfoSelf := none, ipServices := [none, none, none], ipinfoLookup := fun _ => none }

/-- ipinfo.io self-lookup down, the first IP service answers 8.8.8.8, but the
follow-up country lookup fails. -/
def envIPOnly : GeoEnv :=
  { ipinfoSelf := none, ipServices := [some "8.8.8.8"], ipinfoLookup := fun _ => none }

/-- The per-IP lookup answers the lower-case country code de for 5.6.7.7. -/
def envDE : GeoEnv :=
  { ipinfoSelf := none, ipServices := [],
    ipinfoLookup := fun ip => if ip = "5.6.7.7" then some "de" else none }

/-- The ipinfo.io self-lookup answers 9.9.9.9 with the lower-case code fr. -/
def envSelfFR : GeoEnv :=
  { ipinfoSelf := some ⟨"9.9.9.9", "fr"⟩, ipServices := [], ipinfoLookup := fun _ => none }

/-! ### Helper lemmas -/

/-- The Go contains scan decides exactly list membership with string equality. -/
theorem contains_eq_true_iff (l : List String) (x : String) :
    contains l x = true ↔ x ∈ l := by
  induction l with
  | nil => simp [contains]
  | cons a as ih =>
    by_cases h : a = x
    · subst h; simp [contains]
    · simp only [contains, if_neg h, ih, List.mem_cons]
      constructor
      · exact Or.inr
      · rintro (rfl | hx)
        · exact absurd rfl h
        · exact hx

/-- Embedding faithfulness: on a non-private address, getCountryFromIPAddress
is exactly the direct ipinfo.io lookup, which justifies using
lookupPublicCountry for the inner call of the service loop (the Go loop only
reaches that call after its own non-private check). -/
theorem getCountryFromIPAddress_public (env : GeoEnv) (ip : String)
    (h : isPrivateIP ip = false) :
    getCountryFromIPAddress env ip = lookupPublicCountry env ip := by
  simp [getCountryFromIPAddress, h]

/-- Any success of the what-is-my-ip service loop carries a non-empty,
non-private address: both facts are checked before the loop returns. -/
theorem tryIPServices_ok (env : GeoEnv) :
    ∀ (l : List (Option String)) (ip c : String),
      tryIPServices env l = .ok (ip, c) → isPrivateIP ip = false ∧ ip ≠ "" := by
  intro l
  induction l with
  | nil => intro ip c h; simp [tryIPServices] at h
  | cons o rest ih =>
    intro ip c h
    match o with
    | none => exact ih ip c h
    | some body =>
      simp only [tryIPServices] at h
      by_cases hcond : goTrimSpace body ≠ "" ∧ isPrivateIP (goTrimSpace body) = false
      · rw [if_pos hcond] at h
        rcases hl : lookupPublicCountry env (goTrimSpace body) with u | c'
        · rw [hl] at h
          simp only [Except.ok.injEq, Prod.mk.injEq] at h
          obtain ⟨rfl, rfl⟩ := h
          exact ⟨hcond.2, hcond.1⟩
        · rw [hl] at h
          simp only [Except.ok.injEq, Prod.mk.injEq] at h
          obtain ⟨rfl, rfl⟩ := h
          exact ⟨hcond.2, hcond.1⟩
      · rw [if_neg hcond] at h
        exact ih ip c h

/-- Any success of public-IP discovery carries a non-empty, non-private
address. -/
theorem getRealPublicIPAndCountry_ok (env : GeoEnv) (ip c : String)
    (h : getRealPublicIPAndCountry env = .ok (ip, c)) :
    isPrivateIP ip = false ∧ ip ≠ "" := by
  unfold getRealPublicIPAndCountry at h
  rcases hself : env.ipinfoSelf with _ | info
  · rw [hself] at h
    exact tryIPServices_ok env env.ipServices ip c h
  · rw [hself] at h
    dsimp only at h
    by_cases hcond : info.ip ≠ "" ∧ info.country ≠ "" ∧ isPrivateIP info.ip = false
    · rw [if_pos hcond] at h
      simp only [Except.ok.injEq, Prod.mk.injEq] at h
      obtain ⟨rfl, rfl⟩ := h
      exact ⟨hcond.2.2, hcond.1⟩
    · rw [if_neg hcond] at h
      exact tryIPServices_ok env env.ipServices ip c h

/-- When country resolution fails, the middleware's effective country is the
sentinel UNKNOWN. -/
theorem effectiveCountry_of_resolveFailed (env : GeoEnv) (ip : String)
    (h : getCountryFromIPAddress env ip = .error ()) :
    effectiveCountry env ip = "UNKNOWN" := by
  have hcoe : countryOrEmpty env ip = "" := by
    simp [countryOrEmpty, h]
  unfold effectiveCountry middlewareResolve
  by_cases hp : isPrivateIP ip = true
  · simp only [hp, if_true]
    unfold getCountryFromIPAddress at h
    rw [if_pos hp] at h
    rcases hr : getRealPublicIPAndCountry env with u | ⟨rip, rc⟩
    · simp [hr, hcoe]
    · rw [hr] at h
      dsimp only at h
      by_cases hne : rip ≠ "" ∧ rc ≠ ""
      · rw [if_pos hne] at h; exact absurd h (by simp)
      · simp only [hr]
        by_cases hrip : rip ≠ ""
        · have hrc : rc = "" := by
            by_contra hrc
            exact hne ⟨hrip, hrc⟩
          simp [hrip, hrc]
        · simp only [ne_eq, not_not] at hrip
          simp [hrip, hcoe]
  · have hp' : isPrivateIP ip = false := by
      revert hp; cases isPrivateIP ip <;> simp
    simp [hp', hcoe]

/-! ### Claim C2 -/

/-- C2: after a block-countries call with set B, membership (contains) holds
for exactly the codes in B, whatever was blocked before; and the empty
initial list blocks nothing. -/
theorem blockCountries_membership :
    (∀ (prev B : List String) (c : String),
       (contains (handleBlockCountries prev (some B)).1 c = true ↔ c ∈ B)) ∧
    (∀ c : String, contains ([] : List String) c = false) :=
  ⟨fun _ B c => contains_eq_true_iff B c, fun _ => rfl⟩

/-! ### Claim C10 -/

/-- C10: the block-countries handler stores the submitted list verbatim and
membership is exact case-sensitive string comparison, so a lower-case "de" in
the list does not block "DE" and vice versa. -/
theorem blockList_case_sensitive :
    (∀ (prev B : List String), (handleBlockCountries prev (some B)).1 = B) ∧
    contains ["de"] "DE" = false ∧
    contains ["DE"] "de" = false ∧
    (∀ now : String,
       (handleSimulateVPN ["de"] now (some ⟨"DE"⟩)).1 = 200 ∧
       (handleSimulateVPN ["de"] now (some ⟨"DE"⟩)).2.is_blocked = false ∧
       (handleSimulateVPN ["DE"] now (some ⟨"de"⟩)).1 = 200 ∧
       (handleSimulateVPN ["DE"] now (some ⟨"de"⟩)).2.is_blocked = false ∧
       (handleSimulateVPN ["DE"] now (some ⟨"DE"⟩)).1 = 403) := by
  refine ⟨fun prev B => rfl, by decide, by decide, fun now => ⟨?_, ?_, ?_, ?_, ?_⟩⟩ <;> rfl

/-! ### Claim C8 -/

/-- C8 counterexample: a decodable block-countries body without the countries
field (Go decodes the missing field to the nil slice, modelled some []) is not
rejected: the handler answers 200 and replaces the previous block list with
the empty list, so state does mutate on this supposed error path. -/
theorem blockCountries_missing_field_counterexample :
    (handleBlockCountries ["DE"] (some [])).1 = [] ∧
    blockReplyStatus (handleBlockCountries ["DE"] (some [])).2 = 200 := by
  exact ⟨rfl, rfl⟩

/-- C8 (amended): undecodable JSON yields 400 with no state change on both
endpoints (and on validate-blocking), and a missing country_code on
simulate-vpn yields 400; but block-countries performs no validation of the
countries field — any decodable body is accepted with 200 and its list
(possibly nil) replaces the block list. -/
theorem malformed_body_amended :
    (∀ st : List String,
       handleBlockCountries st none = (st, .invalidJSON) ∧
       blockReplyStatus (handleBlockCountries st none).2 = 400) ∧
    (∀ (st : List String) (now : String), (handleSimulateVPN st now none).1 = 400) ∧
    (∀ (st : List String) (now : String), (handleSimulateVPN st now (some ⟨""⟩)).1 = 400) ∧
    (∀ st : List String, handleValidateBlocking st none = (st, none)) ∧
    (∀ (prev B : List String),
       (handleBlockCountries prev (some B)).1 = B ∧
       blockReplyStatus (handleBlockCountries prev (some B)).2 = 200) :=
  ⟨fun _ => ⟨rfl, rfl⟩, fun _ _ => rfl, fun _ _ => rfl, fun _ => rfl, fun _ _ => ⟨rfl, rfl⟩⟩

/-! ### Claim C9 -/

/-- The loop counters sum to the number of iterations, from any start. -/
theorem countFold_sum (l : List TestResult) :
    ∀ b a : Nat,
      (l.foldl (fun acc r => if r.blocked then (acc.1 + 1, acc.2) else (acc.1, acc.2 + 1)) (b, a)).1 +
      (l.foldl (fun acc r => if r.blocked then (acc.1 + 1, acc.2) else (acc.1, acc.2 + 1)) (b, a)).2 =
      b + a + l.length := by
  induction l with
  | nil => intro b a; simp
  | cons r rest ih =>
    intro b a
    by_cases hb : r.blocked = true
    · rw [List.foldl_cons, if_pos hb,
          show ((b, a).1 + 1, (b, a).2) = (b + 1, a) from rfl,
          ih (b + 1) a, List.length_cons]
      omega
    · rw [List.foldl_cons, if_neg hb,
          show ((b, a).1, (b, a).2 + 1) = (b, a + 1) from rfl,
          ih b (a + 1), List.length_cons]
      omega

/-- blocked_count + allowed_count equals the number of results. -/
theorem countBlockedAllowed_sum (l : List TestResult) :
    (countBlockedAllowed l).1 + (countBlockedAllowed l).2 = l.length := by
  simpa using countFold_sum l 0 0

/-- C9: validate-blocking leaves the live block list untouched, reports each
test country blocked exactly when it belongs to the request's hypothetical
blocked_countries, and its summary counts partition the test countries; on
blocked_countries RU,CN and test_countries RU,US it reports one blocked and
one allowed. -/
theorem validateBlocking_frame :
    (∀ (st : List String) (req : ValidationRequest),
       (handleValidateBlocking st (some req)).1 = st ∧
       (∀ resp, (handleValidateBlocking st (some req)).2 = some resp →
          resp.test_results = req.test_countries.map (validateStep req.blocked_countries) ∧
          (∀ r ∈ resp.test_results, (r.blocked = true ↔ r.country ∈ req.blocked_countries)) ∧
          resp.summary.blocked_count + resp.summary.allowed_count = resp.summary.total_tests ∧
          resp.summary.total_tests = req.test_countries.length)) ∧
    handleValidateBlocking ["LIVE"] (some ⟨["RU", "CN"], ["RU", "US"]⟩) =
      (["LIVE"],
       some { test_results := [⟨"RU", true, "Access denied (geo-blocked)", 70⟩,
                               ⟨"US", false, "Access granted", 70⟩]
              summary := ⟨1, 1, 2⟩ }) := by
  refine ⟨fun st req => ⟨rfl, fun resp hresp => ?_⟩, by decide⟩
  have hresp' : resp =
      { test_results := req.test_countries.map (validateStep req.blocked_countries)
        summary :=
          { blocked_count := (countBlockedAllowed (req.test_countries.map (validateStep req.blocked_countries))).1
            allowed_count := (countBlockedAllowed (req.test_countries.map (validateStep req.blocked_countries))).2
            total_tests := req.test_countries.length } } := by
    have : some resp = (handleValidateBlocking st (some req)).2 := hresp.symm
    simpa [handleValidateBlocking] using this
  subst hresp'
  refine ⟨rfl, ?_, ?_, rfl⟩
  · intro r hr
    obtain ⟨c, _, rfl⟩ := List.mem_map.mp hr
    exact contains_eq_true_iff req.blocked_countries c
  · simpa using countBlockedAllowed_sum (req.test_countries.map (validateStep req.blocked_countries))

/-- Concrete response used to witness the validate-blocking theorem. -/
def validateSampleResponse : ValidationResponse :=
  { test_results := [⟨"RU", true, "Access denied (geo-blocked)", 70⟩,
                     ⟨"US", false, "Access granted", 70⟩]
    summary := ⟨1, 1, 2⟩ }

/-- C9 witness: the theorem applied to the concrete RU/CN vs RU/US request. -/
theorem validateBlocking_frame_witness :
    (handleValidateBlocking ["LIVE"] (some ⟨["RU", "CN"], ["RU", "US"]⟩)).1 = ["LIVE"] ∧
    validateSampleResponse.summary.blocked_count + validateSampleResponse.summary.allowed_count
      = validateSampleResponse.summary.total_tests ∧
    ((⟨"RU", true, "Access denied (geo-blocked)", 70⟩ : TestResult).blocked = true ↔
       "RU" ∈ (["RU", "CN"] : List String)) := by
  have h := validateBlocking_frame.1 ["LIVE"] ⟨["RU", "CN"], ["RU", "US"]⟩
  have h2 := h.2 validateSampleResponse (by decide)
  exact ⟨h.1, h2.2.2.1,
         h2.2.1 ⟨"RU", true, "Access denied (geo-blocked)", 70⟩ (by decide)⟩

/-! ### Claim C7 -/

/-- A lookup-with-default over a table of non-empty values is non-empty. -/
theorem goMapLookup_default_ne (m : List (String × String)) (k d : String)
    (hall : ∀ p ∈ m, p.2 ≠ "") (hd : d ≠ "") :
    (match goMapLookup m k with | some v => v | none => d) ≠ "" := by
  induction m with
  | nil => simpa [goMapLookup] using hd
  | cons p rest ih =>
    obtain ⟨pk, pv⟩ := p
    by_cases h : pk = k
    · simpa [goMapLookup, h] using hall (pk, pv) (List.mem_cons_self _ _)
    · simpa [goMapLookup, h] using ih fun q hq => hall q (List.mem_cons_of_mem _ hq)

/-- The simulated IP is never the empty string: every table entry and the
fallback 198.51.100.1 are non-empty. -/
theorem generateSimulatedIP_ne_empty (c : String) : generateSimulatedIP c ≠ "" := by
  unfold generateSimulatedIP
  exact goMapLookup_default_ne simulatedIPRanges c "198.51.100.1" (by decide) (by decide)

/-- C7: for a non-empty submitted country code, simulate-vpn answers 403 with
is_blocked true echoing the code when it is in the block list, and 200 with
is_blocked false and a non-empty simulated IP otherwise; the simulated IP is
generateSimulatedIP of the code, a function of the code alone. -/
theorem simulateVPN_blocking (blockList : List String) (now c : String) (hc : c ≠ "") :
    (contains blockList c = true →
       (handleSimulateVPN blockList now (some ⟨c⟩)).1 = 403 ∧
       (handleSimulateVPN blockList now (some ⟨c⟩)).2.is_blocked = true ∧
       (handleSimulateVPN blockList now (some ⟨c⟩)).2.country_code = c ∧
       (handleSimulateVPN blockList now (some ⟨c⟩)).2.simulated_ip = generateSimulatedIP c) ∧
    (contains blockList c = false →
       (handleSimulateVPN blockList now (some ⟨c⟩)).1 = 200 ∧
       (handleSimulateVPN blockList now (some ⟨c⟩)).2.is_blocked = false ∧
       (handleSimulateVPN blockList now (some ⟨c⟩)).2.country_code = c ∧
       (handleSimulateVPN blockList now (some ⟨c⟩)).2.simulated_ip = generateSimulatedIP c ∧
       generateSimulatedIP c ≠ "") := by
  constructor <;> intro hb <;>
    simp [handleSimulateVPN, hc, hb, generateSimulatedIP_ne_empty]

/-- C7 witness: the theorem applied at block list DE with codes DE and US. -/
theorem simulateVPN_blocking_witness :
    (handleSimulateVPN ["DE"] "2024-01-01T00:00:00Z" (some ⟨"DE"⟩)).1 = 403 ∧
    (handleSimulateVPN ["DE"] "2024-01-01T00:00:00Z" (some ⟨"US"⟩)).1 = 200 ∧
    (handleSimulateVPN ["DE"] "2024-01-01T00:00:00Z" (some ⟨"US"⟩)).2.simulated_ip ≠ "" := by
  refine ⟨((simulateVPN_blocking ["DE"] "2024-01-01T00:00:00Z" "DE" (by decide)).1 (by decide)).1,
          ((simulateVPN_blocking ["DE"] "2024-01-01T00:00:00Z" "US" (by decide)).2 (by decide)).1,
          ?_⟩
  have h := (simulateVPN_blocking ["DE"] "2024-01-01T00:00:00Z" "US" (by decide)).2 (by decide)
  rw [h.2.2.2.1]
  exact h.2.2.2.2

/-! ### Claim C1 -/

/-- C1 counterexample: with every provider down, resolution for 127.0.0.1
fails, and with the sentinel UNKNOWN itself in the block list the gated
endpoint answers 403, not 200 — so a resolution failure can surface as an
HTTP error, contrary to the claim. -/
theorem gate_blocking_counterexample :
    getCountryFromIPAddress envAllFail "127.0.0.1" = .error () ∧
    testAccessStatus envAllFail ["UNKNOWN"] "2024-01-01T00:00:00Z" "127.0.0.1" = 403 :=
  ⟨rfl, by decide⟩

/-- C1 (amended): the gate denies with 403 — echoing the effective country
code and the RFC3339 clock string in the body, without reaching the protected
handler — exactly when the effective country (the resolved code, or the
sentinel UNKNOWN on resolution failure) is in the block list, and passes
through with 200 otherwise; in particular a resolution failure yields 200
whenever the sentinel UNKNOWN is not itself blocked. -/
theorem gate_blocking_amended (env : GeoEnv) (blockList : List String) (now clientIP : String) :
    (contains blockList (effectiveCountry env clientIP) = true →
       countryBlockingGate env blockList now clientIP =
         .deny 403
           { error := "Country Blocked"
             message := "Access denied: Your country (" ++ effectiveCountry env clientIP ++
                        ") has been blocked"
             country_code := effectiveCountry env clientIP
             client_ip := (middlewareResolve env clientIP).1
             detected_via := clientIP
             blocked_at := now
             reason := "Geo-blocking policy in effect" } ∧
       testAccessStatus env blockList now clientIP = 403) ∧
    (contains blockList (effectiveCountry env clientIP) = false →
       countryBlockingGate env blockList now clientIP =
         .allow (effectiveCountry env clientIP) clientIP ∧
       testAccessStatus env blockList now clientIP = 200) ∧
    (getCountryFromIPAddress env clientIP = .error () →
       contains blockList "UNKNOWN" = false →
       testAccessStatus env blockList now clientIP = 200) := by
  refine ⟨fun hb => ?_, fun hb => ?_, fun herr hu => ?_⟩
  · constructor <;> simp [countryBlockingGate, testAccessStatus, hb]
  · constructor <;> simp [countryBlockingGate, testAccessStatus, hb]
  · have he := effectiveCountry_of_resolveFailed env clientIP herr
    simp [testAccessStatus, countryBlockingGate, he, hu]

/-- C1 witness: the amended theorem applied to the environment answering the
code de for 5.6.7.7 and to the all-providers-down environment. -/
theorem gate_blocking_witness :
    testAccessStatus envDE ["de"] "2024-01-01T00:00:00Z" "5.6.7.7" = 403 ∧
    testAccessStatus envDE [] "2024-01-01T00:00:00Z" "5.6.7.7" = 200 ∧
    testAccessStatus envAllFail [] "2024-01-01T00:00:00Z" "127.0.0.1" = 200 :=
  ⟨((gate_blocking_amended envDE ["de"] "2024-01-01T00:00:00Z" "5.6.7.7").1 (by decide)).2,
   ((gate_blocking_amended envDE [] "2024-01-01T00:00:00Z" "5.6.7.7").2.1 (by decide)).2,
   (gate_blocking_amended envAllFail [] "2024-01-01T00:00:00Z" "127.0.0.1").2.2 rfl (by decide)⟩

/-! ### Claim C4 -/

/-- C4 counterexample: public-IP discovery can succeed with a publicly
routable address but no country at all (ipify answers, the follow-up lookup
fails), and when discovery fails entirely the gate does present the private
input 192.168.1.5 itself as the resolved client_ip of the deny body — both
halves of the claim fail. -/
theorem resolver_public_counterexample :
    getRealPublicIPAndCountry envIPOnly = .ok ("8.8.8.8", "") ∧
    isPrivateIP "192.168.1.5" = true ∧
    countryBlockingGate envAllFail ["UNKNOWN"] "2024-01-01T00:00:00Z" "192.168.1.5" =
      .deny 403
        { error := "Country Blocked"
          message := "Access denied: Your country (UNKNOWN) has been blocked"
          country_code := "UNKNOWN"
          client_ip := "192.168.1.5"
          detected_via := "192.168.1.5"
          blocked_at := "2024-01-01T00:00:00Z"
          reason := "Geo-blocking policy in effect" } :=
  ⟨rfl, by decide, by decide⟩

/-- C4 (amended): public-IP discovery never returns a private address — any
success carries a non-empty, publicly routable IP, though possibly with an
empty country; when discovery succeeds for a private client the gate presents
the discovered address (never the private input); only when discovery fails
does the gate fall back to presenting the private input itself. -/
theorem resolver_public_amended :
    (∀ (env : GeoEnv) (ip c : String),
       getRealPublicIPAndCountry env = .ok (ip, c) →
       isPrivateIP ip = false ∧ ip ≠ "") ∧
    (∀ (env : GeoEnv) (clientIP ip c : String),
       isPrivateIP clientIP = true →
       getRealPublicIPAndCountry env = .ok (ip, c) →
       (middlewareResolve env clientIP).1 = ip ∧ (middlewareResolve env clientIP).1 ≠ clientIP) ∧
    (∀ (env : GeoEnv) (clientIP : String),
       isPrivateIP clientIP = true →
       getRealPublicIPAndCountry env = .error () →
       (middlewareResolve env clientIP).1 = clientIP) := by
  refine ⟨fun env ip c h => getRealPublicIPAndCountry_ok env ip c h,
          fun env clientIP ip c hpriv hok => ?_, fun env clientIP hpriv herr => ?_⟩
  · obtain ⟨hip, hne⟩ := getRealPublicIPAndCountry_ok env ip c hok
    have hfst : (middlewareResolve env clientIP).1 = ip := by
      simp [middlewareResolve, hpriv, hok, hne]
    refine ⟨hfst, ?_⟩
    rw [hfst]
    intro hcontra
    rw [hcontra] at hip
    rw [hip] at hpriv
    exact Bool.false_ne_true hpriv
  · simp [middlewareResolve, hpriv, herr]

/-- C4 witness: the amended theorem applied to the ipify-only environment and
to the all-providers-down environment. -/
theorem resolver_public_witness :
    (isPrivateIP "8.8.8.8" = false ∧ ("8.8.8.8" : String) ≠ "") ∧
    (middlewareResolve envIPOnly "192.168.1.5").1 = "8.8.8.8" ∧
    (middlewareResolve envAllFail "10.0.0.1").1 = "10.0.0.1" :=
  ⟨resolver_public_amended.1 envIPOnly "8.8.8.8" "" rfl,
   (resolver_public_amended.2.1 envIPOnly "192.168.1.5" "8.8.8.8" "" (by decide) rfl).1,
   resolver_public_amended.2.2 envAllFail "10.0.0.1" (by decide) rfl⟩

/-! ### Claim C6 -/

/-- C6 counterexample: a provider answering the lower-case code de for the
public address 5.6.7.7 flows through resolution verbatim — no upper-casing —
so the gate does not block it when DE is blocked, yet blocks it when the
lower-case de is blocked. -/
theorem country_verbatim_counterexample :
    getCountryFromIPAddress envDE "5.6.7.7" = .ok "de" ∧
    testAccessStatus envDE ["DE"] "2024-01-01T00:00:00Z" "5.6.7.7" = 200 ∧
    testAccessStatus envDE ["de"] "2024-01-01T00:00:00Z" "5.6.7.7" = 403 :=
  ⟨rfl, by decide, by decide⟩

/-- C6 (amended): country codes obtained from providers are used verbatim in
the blocking decision and the responses — no normalization at all is applied,
not even upper-casing: a direct lookup answer and an ipinfo.io self-lookup
answer are both passed through unchanged. -/
theorem country_verbatim_amended :
    (∀ (env : GeoEnv) (ip c : String),
       isPrivateIP ip = false → env.ipinfoLookup ip = some c → c ≠ "" →
       getCountryFromIPAddress env ip = .ok c) ∧
    (∀ (env : GeoEnv) (info : PublicIPInfo),
       env.ipinfoSelf = some info →
       info.ip ≠ "" → info.country ≠ "" → isPrivateIP info.ip = false →
       getRealPublicIPAndCountry env = .ok (info.ip, info.country)) := by
  constructor
  · intro env ip c hp hl hc
    simp [getCountryFromIPAddress, hp, lookupPublicCountry, hl, hc]
  · intro env info hself h1 h2 h3
    simp [getRealPublicIPAndCountry, hself, h1, h2, h3]

/-- C6 witness: the amended theorem applied to the lower-case environments. -/
theorem country_verbatim_witness :
    getCountryFromIPAddress envDE "5.6.7.7" = .ok "de" ∧
    getRealPublicIPAndCountry envSelfFR = .ok ("9.9.9.9", "fr") :=
  ⟨country_verbatim_amended.1 envDE "5.6.7.7" "de" (by decide) (by decide) (by decide),
   country_verbatim_amended.2 envSelfFR ⟨"9.9.9.9", "fr"⟩ rfl (by decide) (by decide) (by decide)⟩

/-! ### Claim C3 -/

/-- C3: the code classifies 172.2.3.4 and 172.200.0.1 as private although
both lie outside every reserved range of the specification — the source's
five-character prefix "172.2" over-matches; the spec-side reserved-range
predicate is the claim's 10.x, 172.16.x-172.31.x, 192.168.x, 127.x, ::1. -/
theorem isPrivateIP_overmatch :
    isPrivateIP "172.2.3.4" = true ∧ reservedRangeSpec "172.2.3.4" = false ∧
    isPrivateIP "172.200.0.1" = true ∧ reservedRangeSpec "172.200.0.1" = false ∧
    isPrivateIP "172.20.0.1" = true ∧ reservedRangeSpec "172.20.0.1" = true ∧
    isPrivateIP "10.1.2.3" = true ∧ isPrivateIP "8.8.8.8" = false := by
  decide

/-! ### Claim C5: lemmas about the RemoteAddr parsing -/

/-- A character absent from a list has no last index in it. -/
theorem lastIdx_eq_none (c : Char) (l : List Char) (h : c ∉ l) : lastIdx c l = none := by
  induction l with
  | nil => rfl
  | cons x xs ih =>
    have hx : x ≠ c := fun hxc => h (hxc ▸ List.mem_cons_self x xs)
    have hxs : c ∉ xs := fun hm => h (List.mem_cons_of_mem _ hm)
    simp [lastIdx, ih hxs, hx]

/-- When p has no colon, the last colon of a ++ ":" ++ p is at index a.length. -/
theorem lastIdx_append_colon (a p : List Char) (h : ':' ∉ p) :
    lastIdx ':' (a ++ ':' :: p) = some a.length := by
  induction a with
  | nil => simp [lastIdx, lastIdx_eq_none ':' p h]
  | cons x xs ih => simp [lastIdx, ih]

/-- When a has no closing bracket, the first "]" of a ++ "]" ++ p is at index
a.length. -/
theorem firstIdx_append_bracket (a p : List Char) (h : ']' ∉ a) :
    firstIdx ']' (a ++ ']' :: p) = some a.length := by
  induction a with
  | nil => simp [firstIdx]
  | cons x xs ih =>
    have hx : x ≠ ']' := fun hxc => h (hxc ▸ List.mem_cons_self x xs)
    have hxs : ']' ∉ xs := fun hm => h (List.mem_cons_of_mem _ hm)
    simp [firstIdx, hx, ih hxs]

/-- Taking the length of the left part of an append returns the left part. -/
theorem takeLen_append (a b : List Char) : (a ++ b).take a.length = a := by
  induction a with
  | nil => rfl
  | cons x xs ih => simp [List.take, ih]

/-- ip:port with a colon-free port and non-empty ip strips to the ip (the
last colon is the separator). -/
theorem stripColonList_append (a p : List Char) (ha : a ≠ []) (h : ':' ∉ p) :
    stripColonList (a ++ ':' :: p) = a := by
  unfold stripColonList
  rw [lastIdx_append_colon a p h]
  dsimp only
  rw [if_pos (List.length_pos.mpr ha)]
  exact takeLen_append a (':' :: p)

/-- The RemoteAddr fallback on ip:port: when the address does not start with
"[" and the port carries no colon, the result is the ip. -/
theorem stripPortList_ipv4 (c : Char) (a p : List Char) (hc : c ≠ '[') (hp : ':' ∉ p) :
    stripPortList ((c :: a) ++ ':' :: p) = c :: a := by
  have hbr : listHasPrefixOf ((c :: a) ++ ':' :: p) ['['] = false := by
    simp [listHasPrefixOf, hc]
  unfold stripPortList
  rw [if_neg (by rw [hbr]; exact Bool.false_ne_true)]
  exact stripColonList_append (c :: a) p (by simp) hp

/-- The RemoteAddr fallback on a bracketed IPv6 literal: [addr] followed by
anything (in particular :port) unwraps to addr when addr has no "]". -/
theorem stripPortList_ipv6 (a p : List Char) (h : ']' ∉ a) :
    stripPortList ('[' :: a ++ ']' :: p) = a := by
  have hbr : listHasPrefixOf ('[' :: a ++ ']' :: p) ['['] = true := by
    simp [listHasPrefixOf]
  have hne : ('[' : Char) ≠ ']' := by decide
  have hidx : firstIdx ']' ('[' :: a ++ ']' :: p) = some (a.length + 1) := by
    simp [firstIdx, hne, firstIdx_append_bracket a p h]
  unfold stripPortList
  rw [if_pos hbr, hidx]
  dsimp only
  rw [if_pos (Nat.succ_pos a.length)]
  rw [show ('[' :: a ++ ']' :: p).take (a.length + 1) = '[' :: a from by
        simp [List.take_succ_cons, takeLen_append]]
  rfl

/-- C5: the IP extractor's precedence — trimmed first X-Forwarded-For entry
when the header and that entry are non-empty, else X-Real-IP, else
CF-Connecting-IP, else RemoteAddr with the trailing :port stripped and a
bracketed IPv6 literal unwrapped; and the concrete forwarded-for example
yields 1.2.3.4. -/
theorem getRealIP_precedence :
    (∀ r : HTTPRequest, r.xForwardedFor ≠ "" → firstForwardedEntry r.xForwardedFor ≠ "" →
       getRealIP r = firstForwardedEntry r.xForwardedFor) ∧
    (∀ r : HTTPRequest, (r.xForwardedFor = "" ∨ firstForwardedEntry r.xForwardedFor = "") →
       r.xRealIP ≠ "" → getRealIP r = r.xRealIP) ∧
    (∀ r : HTTPRequest, (r.xForwardedFor = "" ∨ firstForwardedEntry r.xForwardedFor = "") →
       r.xRealIP = "" → r.cfConnectingIP ≠ "" → getRealIP r = r.cfConnectingIP) ∧
    (∀ (c : Char) (a p : List Char), c ≠ '[' → ':' ∉ p →
       getRealIP ⟨"", "", "", String.mk ((c :: a) ++ ':' :: p)⟩ = String.mk (c :: a)) ∧
    (∀ (a p : List Char), ']' ∉ a →
       getRealIP ⟨"", "", "", String.mk ('[' :: a ++ ']' :: ':' :: p)⟩ = String.mk a) ∧
    getRealIP ⟨"1.2.3.4, 5.6.7.8", "", "", "10.0.0.1:54321"⟩ = "1.2.3.4" := by
  have hfall : ∀ s : String,
      getRealIP ⟨"", "", "", s⟩ = String.mk (stripPortList s.data) := by
    intro s
    simp [getRealIP, firstForwardedEntry, splitCommaFirst, goTrimSpace]
  refine ⟨?_, ?_, ?_, ?_, ?_, by decide⟩
  · intro r h1 h2
    simp [getRealIP, h1, h2]
  · intro r h1 h2
    have hno : ¬(r.xForwardedFor ≠ "" ∧ firstForwardedEntry r.xForwardedFor ≠ "") := by
      rcases h1 with h | h <;> simp [h]
    unfold getRealIP
    rw [if_neg hno, if_pos h2]
  · intro r h1 h2 h3
    have hno : ¬(r.xForwardedFor ≠ "" ∧ firstForwardedEntry r.xForwardedFor ≠ "") := by
      rcases h1 with h | h <;> simp [h]
    unfold getRealIP
    rw [if_neg hno, if_neg (by simp [h2]), if_pos h3]
  · intro c a p hc hp
    rw [hfall, show (String.mk ((c :: a) ++ ':' :: p)).data = (c :: a) ++ ':' :: p from rfl,
        stripPortList_ipv4 c a p hc hp]
  · intro a p h
    rw [hfall, show (String.mk ('[' :: a ++ ']' :: ':' :: p)).data = '[' :: a ++ ']' :: ':' :: p
          from rfl,
        stripPortList_ipv6 a (':' :: p) h]

/-- C5 witness: the precedence theorem applied at concrete requests for each
tier and the bracketed-IPv6 form. -/
theorem getRealIP_precedence_witness :
    getRealIP ⟨"1.2.3.4, 5.6.7.8", "9.9.9.9", "", "x:1"⟩ = "1.2.3.4" ∧
    getRealIP ⟨"", "9.9.9.9", "7.7.7.7", "x:1"⟩ = "9.9.9.9" ∧
    getRealIP ⟨" , ", "", "7.7.7.7", "x:1"⟩ = "7.7.7.7" ∧
    getRealIP ⟨"", "", "", String.mk (('1' :: "0.0.0.1".data) ++ ':' :: "80".data)⟩ =
      String.mk ('1' :: "0.0.0.1".data) ∧
    getRealIP ⟨"", "", "", String.mk ('[' :: "::1".data ++ ']' :: ':' :: "80".data)⟩ =
      String.mk "::1".data := by
  refine ⟨?_, ?_, ?_, ?_, ?_⟩
  · have h := getRealIP_precedence.1 ⟨"1.2.3.4, 5.6.7.8", "9.9.9.9", "", "x:1"⟩
      (by decide) (by decide)
    rw [h]
    decide
  · exact getRealIP_precedence.2.1 ⟨"", "9.9.9.9", "7.7.7.7", "x:1"⟩ (Or.inl rfl) (by decide)
  · exact getRealIP_precedence.2.2.1 ⟨" , ", "", "7.7.7.7", "x:1"⟩ (Or.inr (by decide)) rfl
      (by decide)
  · exact getRealIP_precedence.2.2.2.1 '1' "0.0.0.1".data "80".data (by decide) (by decide)
  · exact getRealIP_precedence.2.2.2.2.1 "::1".data "80".data (by decide)

end GeoBlock
